import Mathlib

/-!
Shallow embedding of the `football_scouting_agent` repository
(`football_system.py` and `football_system_adk.py`), together with proofs
about its retrying stage executor, requirement collector, and three-stage
pipeline runner.

Conventions of the embedding:
* Python strings are Lean `String`s; a Python value that may be `None` or
  empty and is only ever tested for truthiness is modelled as `""` / `[]`
  (or `Option` where the code distinguishes the two).
* The interactive input stream is a `List String` of lines; an exhausted
  list models end-of-input (`EOFError`).
* The network backend is an oracle mapping the attempt index to the outcome
  of that attempt (a response envelope, or an exception rendered as its
  `str(e)` message).
* `time.sleep` is modelled by recording the slept durations in order.
* `sys.exit(code)` is modelled by an explicit `exited code` result.
-/

namespace FootballScouting

/-! ### Python string primitives

`str.strip`, `str.lower` and the `in` substring operator, as used by the
source. All discriminant tokens and error markers in the source are ASCII.
-/

/-- Characters removed by Python `str.strip()` (ASCII whitespace). -/
def pyIsSpace (c : Char) : Bool :=
  c == ' ' || c == '\t' || c == '\n' || c == '\r' || c == '\x0b' || c == '\x0c'

/-- Python `s.strip()`: drop leading and trailing whitespace. -/
def pyStrip (s : String) : String :=
  String.mk (((s.data.dropWhile pyIsSpace).reverse.dropWhile pyIsSpace).reverse)

/-- Python `s.lower()` (ASCII inputs). -/
def pyLower (s : String) : String :=
  String.mk (s.data.map Char.toLower)

/-- Helper for the substring test: does `sub` start the list `s`? -/
def pyStartsWith : List Char → List Char → Bool
  | [], _ => true
  | _ :: _, [] => false
  | a :: as, b :: bs => a == b && pyStartsWith as bs

/-- Helper for the substring test: does `sub` occur anywhere in the list? -/
def pyContainsCh (sub : List Char) : List Char → Bool
  | [] => pyStartsWith sub []
  | b :: bs => pyStartsWith sub (b :: bs) || pyContainsCh sub bs

/-- Python `sub in s` on strings. -/
def pyContains (s sub : String) : Bool := pyContainsCh sub.data s.data

/-! ### Response envelopes

The `google.genai` response shape read by `run_step`
(`response.text`, `response.candidates[0].content.parts[i].text`), and the
ADK event stream shape read by `run_agent_safe`
(`event.content.parts[i].text`). A part whose `text` is `None` is modelled
by `""` (the code only ever tests truthiness of `part.text`).
-/

structure Part where
  text : String
deriving DecidableEq

structure Content where
  parts : List Part
deriving DecidableEq

structure Candidate where
  content : Content
deriving DecidableEq

structure Response where
  text : String
  candidates : List Candidate
deriving DecidableEq

/-- An ADK event; `content` is `none` when `event.content` is `None`. -/
structure Event where
  content : Option Content
deriving DecidableEq

/-- Text extraction of `run_step` (football_system.py lines 69-75):
`if response.text: return response.text`, else join the truthy part texts of
the first candidate when candidates and parts are truthy, else the sentinel. -/
def extract_text (response : Response) : String :=
  if response.text ≠ "" then response.text
  else
    match response.candidates with
    | candidate :: _ =>
      if candidate.content.parts ≠ [] then
        String.join ((candidate.content.parts.filter (fun part => part.text ≠ "")).map Part.text)
      else "No text response generated."
    | [] => "No text response generated."

/-- The texts appended to `full_response` by `run_agent_safe`
(football_system_adk.py lines 72-77): for each event with truthy content and
parts, every truthy `part.text`. -/
def event_texts (events : List Event) : List String :=
  (events.map (fun event =>
    match event.content with
    | some content =>
      if content.parts ≠ [] then
        (content.parts.filter (fun part => part.text ≠ "")).map Part.text
      else []
    | none => [])).flatten

/-- Text extraction of `run_agent_safe` (football_system_adk.py lines 79-82):
join the collected texts; an empty join yields the sentinel. -/
def extract_events (events : List Event) : String :=
  let result := String.join (event_texts events)
  if result = "" then "No response generated." else result

/-! ### The retrying stage executor

`run_step` (football_system.py lines 40-89) and `run_agent_safe`
(football_system_adk.py lines 47-99). One call to the backend either yields
a response envelope or raises an exception; an exception is modelled by its
`str(e)` message. The loop `for attempt in range(max_retries)` is driven by
fuel starting at `max_retries`.
-/

def max_retries : Nat := 5

def base_delay : Nat := 10

/-- Transient-error test (lines 79 / 86 of the two files):
`"429" in error_str or "RESOURCE_EXHAUSTED" in error_str`. -/
def is_transient (msg : String) : Bool :=
  pyContains msg "429" || pyContains msg "RESOURCE_EXHAUSTED"

/-- Outcome of one `client.models.generate_content` attempt. -/
inductive Outcome where
  | ok (response : Response)
  | err (msg : String)
deriving DecidableEq

/-- Does this attempt outcome hit the retry branch? -/
def Outcome.transient : Outcome → Bool
  | .ok _ => false
  | .err msg => is_transient msg

/-- Outcome of one `runner.run` attempt in the ADK variant. -/
inductive RunOutcome where
  | ok (events : List Event)
  | err (msg : String)
deriving DecidableEq

/-- Does this ADK attempt outcome hit the retry branch? -/
def RunOutcome.transient : RunOutcome → Bool
  | .ok _ => false
  | .err msg => is_transient msg

/-- Observable result of one stage invocation: the returned string, the
number of attempts started, and the backoff sleeps performed in order. -/
structure StepResult where
  result : String
  attempts : Nat
  sleeps : List Nat
deriving DecidableEq

/-- Loop body of `run_step`; `sleeps` accumulates in reverse. Falling out of
the loop (fuel 0) returns `""` (line 89). A success returns the extracted
text (lines 69-75); a transient error sleeps `base_delay * 2 ** attempt`
and continues (lines 79-83); any other error returns `""` (lines 84-86). -/
def run_step_go (outcomes : Nat → Outcome) : Nat → Nat → List Nat → StepResult
  | 0, attempt, sleeps => ⟨"", attempt, sleeps.reverse⟩
  | fuel + 1, attempt, sleeps =>
    match outcomes attempt with
    | .ok response => ⟨extract_text response, attempt + 1, sleeps.reverse⟩
    | .err msg =>
      if is_transient msg then
        run_step_go outcomes fuel (attempt + 1) (base_delay * 2 ^ attempt :: sleeps)
      else
        ⟨"", attempt + 1, sleeps.reverse⟩

/-- The function `run_step` of football_system.py, over a backend oracle. -/
def run_step (outcomes : Nat → Outcome) : StepResult :=
  run_step_go outcomes max_retries 0 []

/-- Loop body of `run_agent_safe`: as `run_step_go`, except that extraction
joins event texts, and a non-transient error is further split on
`"404" in error_str and "not found" in error_str` (lines 91-96) — both of
those branches return `""`. -/
def run_agent_go (outcomes : Nat → RunOutcome) : Nat → Nat → List Nat → StepResult
  | 0, attempt, sleeps => ⟨"", attempt, sleeps.reverse⟩
  | fuel + 1, attempt, sleeps =>
    match outcomes attempt with
    | .ok events => ⟨extract_events events, attempt + 1, sleeps.reverse⟩
    | .err msg =>
      if is_transient msg then
        run_agent_go outcomes fuel (attempt + 1) (base_delay * 2 ^ attempt :: sleeps)
      else if pyContains msg "404" && pyContains msg "not found" then
        ⟨"", attempt + 1, sleeps.reverse⟩
      else
        ⟨"", attempt + 1, sleeps.reverse⟩

/-- The function `run_agent_safe` of football_system_adk.py, over a backend oracle. -/
def run_agent_safe (outcomes : Nat → RunOutcome) : StepResult :=
  run_agent_go outcomes max_retries 0 []

/-! ### The requirement collector

`collect_user_requirements` in both files. The discriminant loop reads
lines until `input(...).strip().lower()` is `player` or `coach`. The
requirements dictionary is an association list in insertion order.
-/

/-- Result of the discriminant `while True` loop: either a valid choice with
the remaining input and the number of prompts issued, or process exit. The
prompt during which end-of-input is hit counts as issued. -/
inductive DiscResult where
  | valid (choice : String) (rest : List String) (prompts : Nat)
  | aborted (code : Nat) (prompts : Nat)
deriving DecidableEq

/-- Discriminant loop of football_system.py (lines 97-108). On `EOFError`
the code sets `choice = ""`; `""` matches neither token, so the
`if choice == ""` branch calls `sys.exit(1)` — hence the `[]` case aborts
directly. An empty stripped line likewise exits; other invalid lines print
a message and loop. -/
def disc_loop : List String → Nat → DiscResult
  | [], prompts => DiscResult.aborted 1 (prompts + 1)
  | line :: rest, prompts =>
    let choice := pyLower (pyStrip line)
    if choice = "player" ∨ choice = "coach" then DiscResult.valid choice rest (prompts + 1)
    else if choice = "" then DiscResult.aborted 1 (prompts + 1)
    else disc_loop rest (prompts + 1)

/-- Discriminant loop of football_system_adk.py (lines 104-112). On
`EOFError` the handler calls `sys.exit(1)` directly; there is no empty-line
branch, so an empty stripped line prints "Invalid choice" and loops like
any other invalid line. -/
def disc_loop_adk : List String → Nat → DiscResult
  | [], prompts => DiscResult.aborted 1 (prompts + 1)
  | line :: rest, prompts =>
    let choice := pyLower (pyStrip line)
    if choice = "player" ∨ choice = "coach" then DiscResult.valid choice rest (prompts + 1)
    else disc_loop_adk rest (prompts + 1)

/-- Result of `collect_user_requirements`: either `sys.exit(code)` or the
returned requirements dictionary. -/
inductive CollectorOutcome where
  | exited (code : Nat)
  | returned (requirements : List (String × String))
deriving DecidableEq

/-- Field collection after a valid discriminant (football_system.py lines
110-127; football_system_adk.py lines 114-130 — both variants build the
same keys with `.strip()`ed answers, only the prompt wording differs).
Too few remaining lines models `EOFError`, which both variants turn into
`sys.exit(1)`. -/
def collect_fields (choice : String) (rest : List String) : CollectorOutcome :=
  if choice = "player" then
    match rest with
    | position :: age :: experience :: style :: _ =>
      CollectorOutcome.returned
        [("type", choice), ("position", pyStrip position), ("age_range", pyStrip age),
         ("experience", pyStrip experience), ("style", pyStrip style)]
    | _ => CollectorOutcome.exited 1
  else
    match rest with
    | style :: experience :: age :: focus :: _ =>
      CollectorOutcome.returned
        [("type", choice), ("style", pyStrip style), ("experience", pyStrip experience),
         ("age_range", pyStrip age), ("focus", pyStrip focus)]
    | _ => CollectorOutcome.exited 1

/-- The function `collect_user_requirements` of football_system.py over an input-line
stream. -/
def collect_user_requirements (input : List String) : CollectorOutcome :=
  match disc_loop input 0 with
  | DiscResult.aborted code _ => CollectorOutcome.exited code
  | DiscResult.valid choice rest _ => collect_fields choice rest

/-- The function `collect_user_requirements` of football_system_adk.py over an
input-line stream. -/
def collect_user_requirements_adk (input : List String) : CollectorOutcome :=
  match disc_loop_adk input 0 with
  | DiscResult.aborted code _ => CollectorOutcome.exited code
  | DiscResult.valid choice rest _ => collect_fields choice rest

/-! ### Dictionary helpers and prompt builders -/

/-- Python `d[k]` on the requirements dictionary (first binding wins; the
collector never duplicates keys). Missing keys are not exercised by the
source, so they default to `""` rather than modelling `KeyError`. -/
def dictGet (m : List (String × String)) (k : String) : String :=
  match m.find? (fun kv => kv.1 == k) with
  | some kv => kv.2
  | none => ""

/-- The key list of a requirements dictionary, in insertion order. -/
def dictKeys (m : List (String × String)) : List String := m.map Prod.fst

/-- Keys of a collector outcome, when it returned. -/
def reqKeys : CollectorOutcome → Option (List String)
  | CollectorOutcome.returned m => some (dictKeys m)
  | CollectorOutcome.exited _ => none

/-- Python `repr` of a string interpolated via an f-string `{dict}`
(quoting simplified to plain single quotes; the collected values never
contain quotes in the scenarios proved here). -/
def pyRepr (s : String) : String := "\x27" ++ s ++ "\x27"

/-- Python str(dict) as interpolated by the f-strings of the prompts. -/
def pyDictRepr (m : List (String × String)) : String :=
  "\x7b" ++ String.intercalate ", " (m.map (fun kv => pyRepr kv.1 ++ ": " ++ pyRepr kv.2)) ++ "\x7d"

/-- The Stage-2 search prompt of football_system.py `main` (lines 138-159),
with the indentation of the triple-quoted template normalised to newlines. -/
def search_prompt (user_reqs : List (String × String)) : String :=
  if dictGet user_reqs "type" = "player" then
    "Act as a Data Retrieval Agent. Find currently active football players who match these criteria:\n"
    ++ "- Position: " ++ dictGet user_reqs "position" ++ "\n"
    ++ "- Age: " ++ dictGet user_reqs "age_range" ++ "\n"
    ++ "- Experience: " ++ dictGet user_reqs "experience" ++ "\n"
    ++ "- Style: " ++ dictGet user_reqs "style" ++ "\n"
    ++ "Use Google Search to find REAL, CURRENT data.\n"
    ++ "List at least 5-7 potential candidates with their current team, key stats from the last season, and market value."
  else
    "Act as a Data Retrieval Agent. Find football coaches matching these criteria:\n"
    ++ "- Style: " ++ dictGet user_reqs "style" ++ "\n"
    ++ "- Experience: " ++ dictGet user_reqs "experience" ++ "\n"
    ++ "- Age: " ++ dictGet user_reqs "age_range" ++ "\n"
    ++ "- Focus: " ++ dictGet user_reqs "focus" ++ "\n"
    ++ "Use Google Search to find REAL, CURRENT data.\n"
    ++ "List at least 5-7 potential candidates with their current status, recent achievements, and tactical preferences."

/-- The Stage-3 scoring prompt of football_system.py `main` (lines 168-182). -/
def scoring_prompt (user_reqs : List (String × String)) (data_output : String) : String :=
  "Act as a Football Scout/Coach (Scoring Agent).\n"
  ++ "Analyze these candidates based on the user requirements: " ++ pyDictRepr user_reqs ++ "\n"
  ++ "Candidate Data:\n" ++ data_output ++ "\n"
  ++ "Task:\n"
  ++ "Assign a score (0-100) to each candidate based on:\n"
  ++ "1. Performance Consistency\n"
  ++ "2. Skill/Tactical Fit\n"
  ++ "3. Experience\n"
  ++ "Provide the list with scores and a brief 1-sentence justification for the score."

/-- The Stage-4 ranking prompt of football_system.py `main` (lines 188-197). -/
def ranking_prompt (scored_output : String) : String :=
  "Act as a Recommendation Agent.\n"
  ++ "Based on these scored candidates:\n" ++ scored_output ++ "\n"
  ++ "Task:\n"
  ++ "1. Select the Top 5.\n"
  ++ "2. Format the output nicely for the user.\n"
  ++ "3. For each recommendation include: Name, Current Team, key reason for recommendation, and final score."

/-- The retrieval prompt of football_system_adk.py `main` (lines 177-180). -/
def search_prompt_adk (user_reqs : List (String × String)) : String :=
  if dictGet user_reqs "type" = "player" then
    "Find 5-7 active football players: Position " ++ dictGet user_reqs "position"
    ++ ", Age " ++ dictGet user_reqs "age_range"
    ++ ", Experience " ++ dictGet user_reqs "experience"
    ++ ", Style " ++ dictGet user_reqs "style" ++ "."
  else
    "Find 5-7 football coaches: Style " ++ dictGet user_reqs "style"
    ++ ", Experience " ++ dictGet user_reqs "experience"
    ++ ", Age " ++ dictGet user_reqs "age_range"
    ++ ", Focus " ++ dictGet user_reqs "focus" ++ "."

/-- The scoring prompt of football_system_adk.py `main` (line 186). -/
def scoring_prompt_adk (user_reqs : List (String × String)) (data_out : String) : String :=
  "User Requirements: " ++ pyDictRepr user_reqs ++ "\nCandidates:\n" ++ data_out

/-- The ranking prompt of football_system_adk.py `main` (line 191). -/
def ranking_prompt_adk (score_out : String) : String :=
  "Rank these candidates:\n" ++ score_out

/-! ### The pipeline runner

`main` of both files, after requirement collection, as a small-step state
machine: `pc` 0/1/2 are the retrieve/score/rank stages, 3 is normal
completion, 4 is the early `return` of the ADK variant. `invoked` records the
stages whose backend call was actually made. The backend oracle maps each
prompt of each stage and the attempt index to the outcome of that attempt.
-/

/-- The three pipeline stages. -/
inductive Stage where
  | retrieve
  | score
  | rank
deriving DecidableEq

/-- Backend oracle for football_system.py: one outcome function per stage,
depending on the submitted prompt. -/
structure Backend where
  retrieve : String → Nat → Outcome
  score : String → Nat → Outcome
  rank : String → Nat → Outcome

/-- Backend oracle for football_system_adk.py. -/
structure BackendAdk where
  retrieve : String → Nat → RunOutcome
  score : String → Nat → RunOutcome
  rank : String → Nat → RunOutcome

/-- The local state of one `main` pipeline run. -/
structure PipeState where
  reqs : List (String × String)
  data_output : String
  scored_output : String
  final_output : String
  pc : Nat
  invoked : List Stage
deriving DecidableEq

/-- State right after `collect_user_requirements` returned `reqs`. -/
def initState (reqs : List (String × String)) : PipeState :=
  ⟨reqs, "", "", "", 0, []⟩

/-- One statement of football_system.py `main` (lines 161-203): the three
`run_step` calls run unconditionally in order; an empty `data_output` only
triggers a printed warning (lines 164-165), never an abort. -/
def main_step (b : Backend) (s : PipeState) : PipeState :=
  match s.pc with
  | 0 => { s with
      data_output := (run_step (b.retrieve (search_prompt s.reqs))).result,
      invoked := s.invoked ++ [Stage.retrieve], pc := 1 }
  | 1 => { s with
      scored_output := (run_step (b.score (scoring_prompt s.reqs s.data_output))).result,
      invoked := s.invoked ++ [Stage.score], pc := 2 }
  | 2 => { s with
      final_output := (run_step (b.rank (ranking_prompt s.scored_output))).result,
      invoked := s.invoked ++ [Stage.rank], pc := 3 }
  | _ => s

/-- The whole football_system.py `main` pipeline (three steps). -/
def main_run (b : Backend) (reqs : List (String × String)) : PipeState :=
  main_step b (main_step b (main_step b (initState reqs)))

/-- One statement of football_system_adk.py `main` (lines 174-197): after
retrieval, `if not data_out: return` (line 183) jumps to the aborted state
4; likewise after scoring (line 188); ranking output is printed with no
emptiness check. -/
def main_step_adk (b : BackendAdk) (s : PipeState) : PipeState :=
  match s.pc with
  | 0 =>
    let d := (run_agent_safe (b.retrieve (search_prompt_adk s.reqs))).result
    { s with
      data_output := d, invoked := s.invoked ++ [Stage.retrieve],
      pc := if d = "" then 4 else 1 }
  | 1 =>
    let sc := (run_agent_safe (b.score (scoring_prompt_adk s.reqs s.data_output))).result
    { s with
      scored_output := sc, invoked := s.invoked ++ [Stage.score],
      pc := if sc = "" then 4 else 2 }
  | 2 =>
    { s with
      final_output := (run_agent_safe (b.rank (ranking_prompt_adk s.scored_output))).result,
      invoked := s.invoked ++ [Stage.rank], pc := 3 }
  | _ => s

/-- The whole football_system_adk.py `main` pipeline (three steps; early
returns stay absorbed in state 4). -/
def main_run_adk (b : BackendAdk) (reqs : List (String × String)) : PipeState :=
  main_step_adk b (main_step_adk b (main_step_adk b (initState reqs)))

/-! ### Concrete scenarios

Backend oracles, responses and inputs used to evaluate the definitions at
specific points. `reqsSample` mirrors the inputs fed by
`verify_football_system.py`.
-/

/-- A backend that hits the rate limit on every attempt. -/
def oAllTransient : Nat → Outcome := fun _ => Outcome.err "429 RESOURCE_EXHAUSTED"

/-- ADK backend that hits the rate limit on every attempt. -/
def oaAllTransient : Nat → RunOutcome := fun _ => RunOutcome.err "Error 429: quota exceeded"

/-- A backend that fails non-transiently on the first attempt. -/
def oFatal : Nat → Outcome := fun _ => Outcome.err "500 Internal Server Error"

/-- ADK backend failing with the model-missing (404) error. -/
def oaFatal : Nat → RunOutcome := fun _ => RunOutcome.err "404 model not found"

/-- A response whose `text` accessor is non-empty. -/
def rHello : Response := ⟨"hello", []⟩

/-- An ADK event stream carrying one text part. -/
def eventsHello : List Event := [⟨some ⟨[⟨"hello"⟩]⟩⟩]

/-- Backend: transient failure on attempt 0, success on attempt 1. -/
def oRetryThenOk : Nat → Outcome :=
  fun i => if i = 0 then Outcome.err "429 rate limit" else Outcome.ok rHello

/-- ADK backend: transient failure on attempt 0, success on attempt 1. -/
def oaRetryThenOk : Nat → RunOutcome :=
  fun i => if i = 0 then RunOutcome.err "RESOURCE_EXHAUSTED" else RunOutcome.ok eventsHello

/-- A response with no `text`, one candidate, one part whose text is absent
(e.g. a function-call part): it carries no text anywhere. -/
def rPartsNoText : Response := ⟨"", [⟨⟨[⟨""⟩]⟩⟩]⟩

/-- Backend returning `rPartsNoText` on every attempt. -/
def oPartsNoText : Nat → Outcome := fun _ => Outcome.ok rPartsNoText

/-- Backend succeeding with `rHello` on every attempt. -/
def oOk : Nat → Outcome := fun _ => Outcome.ok rHello

/-- The requirements collected from the `verify_football_system.py` inputs. -/
def reqsSample : List (String × String) :=
  [("type", "player"), ("position", "Forward"), ("age_range", "20-25"),
   ("experience", "3+ years"), ("style", "Attacking, fast")]

/-- Pipeline backend whose retrieval stage fails non-transiently (and hence
returns `""`), while the later stages would succeed. -/
def bFail : Backend :=
  ⟨fun _ _ => Outcome.err "boom", fun _ _ => Outcome.ok rHello, fun _ _ => Outcome.ok rHello⟩

/-- ADK pipeline backend whose retrieval stage fails non-transiently. -/
def bAdkFail : BackendAdk :=
  ⟨fun _ _ => RunOutcome.err "boom", fun _ _ => RunOutcome.ok eventsHello,
   fun _ _ => RunOutcome.ok eventsHello⟩

/-- Requirements produced from the padded, mixed-case discriminant input
`"  PLAYER "` followed by answers `a b c d`. -/
def reqsNorm : List (String × String) :=
  [("type", "player"), ("position", "a"), ("age_range", "b"),
   ("experience", "c"), ("style", "d")]

/-! ## Helper lemmas on the retry loop -/

/-- One transient attempt of `run_step` consumes one unit of fuel and sleeps
`base_delay * 2 ^ attempt`. -/
theorem run_step_go_transient_step (o : Nat → Outcome) (fuel attempt : Nat) (acc : List Nat)
    (h : (o attempt).transient = true) :
    run_step_go o (fuel + 1) attempt acc =
      run_step_go o fuel (attempt + 1) (base_delay * 2 ^ attempt :: acc) := by
  cases ho : o attempt with
  | ok r => rw [ho] at h; simp [Outcome.transient] at h
  | err m =>
    have ht : is_transient m = true := by rw [ho] at h; simpa [Outcome.transient] using h
    simp [run_step_go, ho, ht]

/-- Splitting the geometric sleep schedule at its first element. -/
theorem range_shift_delay (attempt n : Nat) :
    (List.range (n + 1)).map (fun i => base_delay * 2 ^ (attempt + i)) =
      (base_delay * 2 ^ attempt) :: (List.range n).map (fun i => base_delay * 2 ^ (attempt + 1 + i)) := by
  rw [List.range_succ_eq_map, List.map_cons, List.map_map]
  congr 1
  apply List.map_congr_left
  intro i _
  simp only [Function.comp_apply]
  congr 2
  omega

/-- If every attempt is transient, `run_step_go` exhausts its fuel, sleeping
the full geometric schedule. -/
theorem run_step_go_all_transient (o : Nat → Outcome) :
    ∀ (fuel attempt : Nat) (acc : List Nat),
      (∀ i, i < fuel → (o (attempt + i)).transient = true) →
      run_step_go o fuel attempt acc =
        ⟨"", attempt + fuel,
          acc.reverse ++ (List.range fuel).map (fun i => base_delay * 2 ^ (attempt + i))⟩ := by
  intro fuel
  induction fuel with
  | zero =>
    intro attempt acc _
    simp only [run_step_go, List.range_zero, List.map_nil, List.append_nil, Nat.add_zero]
  | succ n ih =>
    intro attempt acc h
    have h0 : (o attempt).transient = true := by
      have := h 0 (Nat.succ_pos n)
      rwa [Nat.add_zero] at this
    rw [run_step_go_transient_step o n attempt acc h0,
      ih (attempt + 1) (base_delay * 2 ^ attempt :: acc) (fun i hi => by
        have e : attempt + 1 + i = attempt + (i + 1) := by omega
        rw [e]
        exact h (i + 1) (Nat.succ_lt_succ hi))]
    simp only [StepResult.mk.injEq, true_and]
    refine ⟨by omega, ?_⟩
    rw [List.reverse_cons, List.append_assoc, range_shift_delay attempt n,
      List.singleton_append]

/-- A transient prefix of length `a` only moves the loop forward by `a`
attempts, accumulating the corresponding sleeps. -/
theorem run_step_go_skip (o : Nat → Outcome) :
    ∀ (a fuel attempt : Nat) (acc : List Nat),
      (∀ i, i < a → (o (attempt + i)).transient = true) →
      run_step_go o (a + fuel) attempt acc =
        run_step_go o fuel (attempt + a)
          (((List.range a).map (fun i => base_delay * 2 ^ (attempt + i))).reverse ++ acc) := by
  intro a
  induction a with
  | zero =>
    intro fuel attempt acc _
    simp only [Nat.zero_add, Nat.add_zero, List.range_zero, List.map_nil, List.reverse_nil,
      List.nil_append]
  | succ n ih =>
    intro fuel attempt acc h
    have h0 : (o attempt).transient = true := by
      have := h 0 (Nat.succ_pos n)
      rwa [Nat.add_zero] at this
    have hfuel : n + 1 + fuel = (n + fuel) + 1 := by omega
    rw [hfuel, run_step_go_transient_step o (n + fuel) attempt acc h0,
      ih fuel (attempt + 1) (base_delay * 2 ^ attempt :: acc) (fun i hi => by
        have e : attempt + 1 + i = attempt + (i + 1) := by omega
        rw [e]
        exact h (i + 1) (Nat.succ_lt_succ hi))]
    congr 1
    · omega
    · rw [range_shift_delay attempt n, List.reverse_cons, List.append_assoc,
        List.singleton_append]

/-- A success on attempt `a` after `a` transient failures: the stage returns
the extracted text, made `a + 1` attempts, and slept the schedule up to `a`. -/
theorem run_step_success (o : Nat → Outcome) (a : Nat) (r : Response)
    (ha : a < max_retries) (hpre : ∀ i, i < a → (o i).transient = true)
    (hok : o a = Outcome.ok r) :
    run_step o =
      ⟨extract_text r, a + 1, (List.range a).map (fun i => base_delay * 2 ^ i)⟩ := by
  have h5 : max_retries = a + (max_retries - a) := by omega
  rw [run_step, h5, run_step_go_skip o a (max_retries - a) 0 []
    (fun i hi => by rw [Nat.zero_add]; exact hpre i hi)]
  obtain ⟨f, hf⟩ : ∃ f, max_retries - a = f + 1 := ⟨max_retries - a - 1, by omega⟩
  rw [hf]
  simp only [Nat.zero_add]
  simp only [run_step_go, hok, List.append_nil, List.reverse_reverse]

/-- A non-transient error on attempt `a` after `a` transient failures: the
stage returns `""` after `a + 1` attempts. -/
theorem run_step_fatal (o : Nat → Outcome) (a : Nat) (m : String)
    (ha : a < max_retries) (hpre : ∀ i, i < a → (o i).transient = true)
    (herr : o a = Outcome.err m) (hm : is_transient m = false) :
    run_step o = ⟨"", a + 1, (List.range a).map (fun i => base_delay * 2 ^ i)⟩ := by
  have h5 : max_retries = a + (max_retries - a) := by omega
  rw [run_step, h5, run_step_go_skip o a (max_retries - a) 0 []
    (fun i hi => by rw [Nat.zero_add]; exact hpre i hi)]
  obtain ⟨f, hf⟩ : ∃ f, max_retries - a = f + 1 := ⟨max_retries - a - 1, by omega⟩
  rw [hf]
  simp only [Nat.zero_add]
  simp only [run_step_go, herr, hm, Bool.false_eq_true, if_false, List.append_nil,
    List.reverse_reverse]

/-- Transient failures on all five attempts: the stage returns `""` after
five attempts, having slept the full schedule. -/
theorem run_step_exhausted (o : Nat → Outcome)
    (h : ∀ i, i < max_retries → (o i).transient = true) :
    run_step o =
      ⟨"", max_retries, (List.range max_retries).map (fun i => base_delay * 2 ^ i)⟩ := by
  rw [run_step, run_step_go_all_transient o max_retries 0 []
    (fun i hi => by rw [Nat.zero_add]; exact h i hi)]
  simp only [List.reverse_nil, List.nil_append, Nat.zero_add]

/-- Every oracle either has a first non-transient attempt within the retry
budget, or is transient throughout it. -/
theorem run_step_cases (o : Nat → Outcome) :
    (∃ a, a < max_retries ∧ (∀ i, i < a → (o i).transient = true) ∧
      (o a).transient = false) ∨
      (∀ i, i < max_retries → (o i).transient = true) := by
  by_cases h : ∀ i, i < max_retries → (o i).transient = true
  · exact Or.inr h
  · left
    push_neg at h
    obtain ⟨j, hj, hjt⟩ := h
    have hex : ∃ i, i < max_retries ∧ (o i).transient = false :=
      ⟨j, hj, by revert hjt; cases (o j).transient <;> simp⟩
    obtain ⟨hlt, hfalse⟩ := Nat.find_spec hex
    refine ⟨Nat.find hex, hlt, ?_, hfalse⟩
    intro i hi
    have := Nat.find_min hex hi
    push_neg at this
    have hi5 : i < max_retries := by omega
    revert this
    cases hb : (o i).transient <;> simp [hi5]

/-- One transient attempt of `run_agent_safe` consumes one unit of fuel and
sleeps `base_delay * 2 ^ attempt`. -/
theorem run_agent_go_transient_step (o : Nat → RunOutcome) (fuel attempt : Nat)
    (acc : List Nat) (h : (o attempt).transient = true) :
    run_agent_go o (fuel + 1) attempt acc =
      run_agent_go o fuel (attempt + 1) (base_delay * 2 ^ attempt :: acc) := by
  cases ho : o attempt with
  | ok ev => rw [ho] at h; simp [RunOutcome.transient] at h
  | err m =>
    have ht : is_transient m = true := by rw [ho] at h; simpa [RunOutcome.transient] using h
    simp [run_agent_go, ho, ht]

/-- ADK analogue of `run_step_go_all_transient`. -/
theorem run_agent_go_all_transient (o : Nat → RunOutcome) :
    ∀ (fuel attempt : Nat) (acc : List Nat),
      (∀ i, i < fuel → (o (attempt + i)).transient = true) →
      run_agent_go o fuel attempt acc =
        ⟨"", attempt + fuel,
          acc.reverse ++ (List.range fuel).map (fun i => base_delay * 2 ^ (attempt + i))⟩ := by
  intro fuel
  induction fuel with
  | zero =>
    intro attempt acc _
    simp only [run_agent_go, List.range_zero, List.map_nil, List.append_nil, Nat.add_zero]
  | succ n ih =>
    intro attempt acc h
    have h0 : (o attempt).transient = true := by
      have := h 0 (Nat.succ_pos n)
      rwa [Nat.add_zero] at this
    rw [run_agent_go_transient_step o n attempt acc h0,
      ih (attempt + 1) (base_delay * 2 ^ attempt :: acc) (fun i hi => by
        have e : attempt + 1 + i = attempt + (i + 1) := by omega
        rw [e]
        exact h (i + 1) (Nat.succ_lt_succ hi))]
    simp only [StepResult.mk.injEq, true_and]
    refine ⟨by omega, ?_⟩
    rw [List.reverse_cons, List.append_assoc, range_shift_delay attempt n,
      List.singleton_append]

/-- ADK analogue of `run_step_go_skip`. -/
theorem run_agent_go_skip (o : Nat → RunOutcome) :
    ∀ (a fuel attempt : Nat) (acc : List Nat),
      (∀ i, i < a → (o (attempt + i)).transient = true) →
      run_agent_go o (a + fuel) attempt acc =
        run_agent_go o fuel (attempt + a)
          (((List.range a).map (fun i => base_delay * 2 ^ (attempt + i))).reverse ++ acc) := by
  intro a
  induction a with
  | zero =>
    intro fuel attempt acc _
    simp only [Nat.zero_add, Nat.add_zero, List.range_zero, List.map_nil, List.reverse_nil,
      List.nil_append]
  | succ n ih =>
    intro fuel attempt acc h
    have h0 : (o attempt).transient = true := by
      have := h 0 (Nat.succ_pos n)
      rwa [Nat.add_zero] at this
    have hfuel : n + 1 + fuel = (n + fuel) + 1 := by omega
    rw [hfuel, run_agent_go_transient_step o (n + fuel) attempt acc h0,
      ih fuel (attempt + 1) (base_delay * 2 ^ attempt :: acc) (fun i hi => by
        have e : attempt + 1 + i = attempt + (i + 1) := by omega
        rw [e]
        exact h (i + 1) (Nat.succ_lt_succ hi))]
    congr 1
    · omega
    · rw [range_shift_delay attempt n, List.reverse_cons, List.append_assoc,
        List.singleton_append]

/-- ADK analogue of `run_step_success`. -/
theorem run_agent_success (o : Nat → RunOutcome) (a : Nat) (events : List Event)
    (ha : a < max_retries) (hpre : ∀ i, i < a → (o i).transient = true)
    (hok : o a = RunOutcome.ok events) :
    run_agent_safe o =
      ⟨extract_events events, a + 1, (List.range a).map (fun i => base_delay * 2 ^ i)⟩ := by
  have h5 : max_retries = a + (max_retries - a) := by omega
  rw [run_agent_safe, h5, run_agent_go_skip o a (max_retries - a) 0 []
    (fun i hi => by rw [Nat.zero_add]; exact hpre i hi)]
  obtain ⟨f, hf⟩ : ∃ f, max_retries - a = f + 1 := ⟨max_retries - a - 1, by omega⟩
  rw [hf]
  simp only [Nat.zero_add]
  simp only [run_agent_go, hok, List.append_nil, List.reverse_reverse]

/-- ADK analogue of `run_step_fatal`: both non-transient branches (the
model-missing 404 one and the catch-all) return `""`. -/
theorem run_agent_fatal (o : Nat → RunOutcome) (a : Nat) (m : String)
    (ha : a < max_retries) (hpre : ∀ i, i < a → (o i).transient = true)
    (herr : o a = RunOutcome.err m) (hm : is_transient m = false) :
    run_agent_safe o = ⟨"", a + 1, (List.range a).map (fun i => base_delay * 2 ^ i)⟩ := by
  have h5 : max_retries = a + (max_retries - a) := by omega
  rw [run_agent_safe, h5, run_agent_go_skip o a (max_retries - a) 0 []
    (fun i hi => by rw [Nat.zero_add]; exact hpre i hi)]
  obtain ⟨f, hf⟩ : ∃ f, max_retries - a = f + 1 := ⟨max_retries - a - 1, by omega⟩
  rw [hf]
  simp only [Nat.zero_add]
  simp only [run_agent_go, herr, hm, Bool.false_eq_true, if_false, ite_self,
    List.append_nil, List.reverse_reverse]

/-- ADK analogue of `run_step_exhausted`. -/
theorem run_agent_exhausted (o : Nat → RunOutcome)
    (h : ∀ i, i < max_retries → (o i).transient = true) :
    run_agent_safe o =
      ⟨"", max_retries, (List.range max_retries).map (fun i => base_delay * 2 ^ i)⟩ := by
  rw [run_agent_safe, run_agent_go_all_transient o max_retries 0 []
    (fun i hi => by rw [Nat.zero_add]; exact h i hi)]
  simp only [List.reverse_nil, List.nil_append, Nat.zero_add]

/-- ADK analogue of `run_step_cases`. -/
theorem run_agent_cases (o : Nat → RunOutcome) :
    (∃ a, a < max_retries ∧ (∀ i, i < a → (o i).transient = true) ∧
      (o a).transient = false) ∨
      (∀ i, i < max_retries → (o i).transient = true) := by
  by_cases h : ∀ i, i < max_retries → (o i).transient = true
  · exact Or.inr h
  · left
    push_neg at h
    obtain ⟨j, hj, hjt⟩ := h
    have hex : ∃ i, i < max_retries ∧ (o i).transient = false :=
      ⟨j, hj, by revert hjt; cases (o j).transient <;> simp⟩
    obtain ⟨hlt, hfalse⟩ := Nat.find_spec hex
    refine ⟨Nat.find hex, hlt, ?_, hfalse⟩
    intro i hi
    have := Nat.find_min hex hi
    push_neg at this
    have hi5 : i < max_retries := by omega
    revert this
    cases hb : (o i).transient <;> simp [hi5]

/-! ## Claim theorems -/

/-- Claim C1: every stage invocation makes at most 5 attempts; the i-th
backoff sleep (performed after a transient failure on attempt i) is
`base_delay * 2 ^ i`, so an all-transient run sleeps 10, 20, 40, 80, 160
seconds; after the 5th failed attempt the stage declares failure by
returning `""`. Stated for `run_step` and for `run_agent_safe`. -/
theorem c1_retry_backoff :
    (∀ o : Nat → Outcome,
      (run_step o).attempts ≤ max_retries ∧
      ∀ i, (hi : i < (run_step o).sleeps.length) →
        (run_step o).sleeps[i] = base_delay * 2 ^ i) ∧
    (∀ o : Nat → Outcome, (∀ i, i < max_retries → (o i).transient = true) →
      (run_step o).attempts = 5 ∧ (run_step o).sleeps = [10, 20, 40, 80, 160] ∧
      (run_step o).result = "") ∧
    (∀ o : Nat → RunOutcome,
      (run_agent_safe o).attempts ≤ max_retries ∧
      ∀ i, (hi : i < (run_agent_safe o).sleeps.length) →
        (run_agent_safe o).sleeps[i] = base_delay * 2 ^ i) ∧
    (∀ o : Nat → RunOutcome, (∀ i, i < max_retries → (o i).transient = true) →
      (run_agent_safe o).attempts = 5 ∧ (run_agent_safe o).sleeps = [10, 20, 40, 80, 160] ∧
      (run_agent_safe o).result = "") := by
  refine ⟨?_, ?_, ?_, ?_⟩
  · intro o
    rcases run_step_cases o with ⟨a, ha, hpre, hfalse⟩ | hall
    · cases ho : o a with
      | ok r =>
        rw [run_step_success o a r ha hpre ho]
        exact ⟨show a + 1 ≤ max_retries by omega, by intro i hi; simp⟩
      | err m =>
        have hm : is_transient m = false := by
          rw [ho] at hfalse
          simpa [Outcome.transient] using hfalse
        rw [run_step_fatal o a m ha hpre ho hm]
        exact ⟨show a + 1 ≤ max_retries by omega, by intro i hi; simp⟩
    · rw [run_step_exhausted o hall]
      exact ⟨Nat.le_refl _, by intro i hi; simp⟩
  · intro o h
    rw [run_step_exhausted o h]
    exact ⟨rfl, by decide, rfl⟩
  · intro o
    rcases run_agent_cases o with ⟨a, ha, hpre, hfalse⟩ | hall
    · cases ho : o a with
      | ok ev =>
        rw [run_agent_success o a ev ha hpre ho]
        exact ⟨show a + 1 ≤ max_retries by omega, by intro i hi; simp⟩
      | err m =>
        have hm : is_transient m = false := by
          rw [ho] at hfalse
          simpa [RunOutcome.transient] using hfalse
        rw [run_agent_fatal o a m ha hpre ho hm]
        exact ⟨show a + 1 ≤ max_retries by omega, by intro i hi; simp⟩
    · rw [run_agent_exhausted o hall]
      exact ⟨Nat.le_refl _, by intro i hi; simp⟩
  · intro o h
    rw [run_agent_exhausted o h]
    exact ⟨rfl, by decide, rfl⟩

/-- Witness for C1: the always-rate-limited backends sleep exactly
10, 20, 40, 80, 160 and fail after 5 attempts. -/
theorem c1_retry_backoff_witness :
    (run_step oAllTransient).attempts = 5 ∧
    (run_step oAllTransient).sleeps = [10, 20, 40, 80, 160] ∧
    (run_step oAllTransient).result = "" ∧
    (run_agent_safe oaAllTransient).sleeps = [10, 20, 40, 80, 160] := by
  obtain ⟨h1, h2, h3⟩ := c1_retry_backoff.2.1 oAllTransient (fun i _ => rfl)
  obtain ⟨-, h4, -⟩ := c1_retry_backoff.2.2.2 oaAllTransient (fun i _ => rfl)
  exact ⟨h1, h2, h3, h4⟩

/-- Claim C6: a non-transient backend error (after any number of transient
ones), or exhaustion of all retries, makes the stage return `""` to its
caller; the executor returns normally rather than terminating the process.
Stated for `run_step` and for `run_agent_safe`. -/
theorem c6_nontransient_or_exhausted_empty :
    (∀ (o : Nat → Outcome) (a : Nat) (m : String), a < max_retries →
      (∀ i, i < a → (o i).transient = true) → o a = Outcome.err m →
      is_transient m = false →
      (run_step o).result = "" ∧ (run_step o).attempts = a + 1) ∧
    (∀ o : Nat → Outcome, (∀ i, i < max_retries → (o i).transient = true) →
      (run_step o).result = "") ∧
    (∀ (o : Nat → RunOutcome) (a : Nat) (m : String), a < max_retries →
      (∀ i, i < a → (o i).transient = true) → o a = RunOutcome.err m →
      is_transient m = false →
      (run_agent_safe o).result = "" ∧ (run_agent_safe o).attempts = a + 1) ∧
    (∀ o : Nat → RunOutcome, (∀ i, i < max_retries → (o i).transient = true) →
      (run_agent_safe o).result = "") := by
  refine ⟨?_, ?_, ?_, ?_⟩
  · intro o a m ha hpre herr hm
    rw [run_step_fatal o a m ha hpre herr hm]
    exact ⟨rfl, rfl⟩
  · intro o h
    rw [run_step_exhausted o h]
  · intro o a m ha hpre herr hm
    rw [run_agent_fatal o a m ha hpre herr hm]
    exact ⟨rfl, rfl⟩
  · intro o h
    rw [run_agent_exhausted o h]

/-- Witness for C6 at concrete fatal errors (a 500 and a 404). -/
theorem c6_nontransient_witness :
    (run_step oFatal).result = "" ∧ (run_step oFatal).attempts = 1 ∧
    (run_agent_safe oaFatal).result = "" ∧ (run_agent_safe oaFatal).attempts = 1 := by
  obtain ⟨h1, h2⟩ := c6_nontransient_or_exhausted_empty.1 oFatal 0 "500 Internal Server Error"
    (by decide) (fun i hi => absurd hi (Nat.not_lt_zero i)) rfl (by decide)
  obtain ⟨h3, h4⟩ := c6_nontransient_or_exhausted_empty.2.2.1 oaFatal 0 "404 model not found"
    (by decide) (fun i hi => absurd hi (Nat.not_lt_zero i)) rfl (by decide)
  exact ⟨h1, h2, h3, h4⟩

/-- Claim C8: a transient failure on attempt 0 followed by a success with
text `T` on attempt 1 makes the stage return exactly `T`; in general the
extracted text of the eventual success is the result of the stage. -/
theorem c8_retry_transparency :
    (∀ (o : Nat → Outcome) (r : Response) (T : String),
      (o 0).transient = true → o 1 = Outcome.ok r → r.text = T → T ≠ "" →
      (run_step o).result = T) ∧
    (∀ (o : Nat → Outcome) (r : Response),
      (o 0).transient = true → o 1 = Outcome.ok r →
      (run_step o).result = extract_text r) ∧
    (∀ (o : Nat → RunOutcome) (events : List Event) (T : String),
      (o 0).transient = true → o 1 = RunOutcome.ok events →
      String.join (event_texts events) = T → T ≠ "" →
      (run_agent_safe o).result = T) := by
  have k1 : ∀ (o : Nat → Outcome) (r : Response), (o 0).transient = true →
      o 1 = Outcome.ok r → (run_step o).result = extract_text r := by
    intro o r h0 h1
    rw [run_step_success o 1 r (by decide)
      (fun i hi => by
        have hi0 : i = 0 := by omega
        rw [hi0]
        exact h0) h1]
  refine ⟨?_, k1, ?_⟩
  · intro o r T h0 h1 hT hne
    rw [k1 o r h0 h1]
    unfold extract_text
    rw [if_pos (show r.text ≠ "" by rw [hT]; exact hne), hT]
  · intro o events T h0 h1 hT hne
    rw [run_agent_success o 1 events (by decide)
      (fun i hi => by
        have hi0 : i = 0 := by omega
        rw [hi0]
        exact h0) h1]
    simp [extract_events, hT, hne]

/-- Witness for C8: rate-limited once, then success with text "hello". -/
theorem c8_retry_transparency_witness :
    (run_step oRetryThenOk).result = "hello" ∧
    (run_agent_safe oaRetryThenOk).result = "hello" := by
  refine ⟨c8_retry_transparency.1 oRetryThenOk rHello "hello" (by decide) (by decide) rfl
    (by decide), c8_retry_transparency.2.2 oaRetryThenOk eventsHello "hello" (by decide)
    (by decide) (by decide) (by decide)⟩

/-- Counterexample to C7 as stated: `rPartsNoText` carries no text at all
(its `text` accessor is empty and the text of its only part is empty), yet
`run_step` returns `""` — the empty join — and not the sentinel
"no response" string. -/
theorem c7_counterexample :
    rPartsNoText.text = "" ∧
    rPartsNoText.candidates = [⟨⟨[⟨""⟩]⟩⟩] ∧
    extract_text rPartsNoText = "" ∧
    (run_step oPartsNoText).result = "" ∧
    ("" : String) ≠ "No text response generated." := by
  refine ⟨rfl, rfl, rfl, rfl, by decide⟩

/-- Claim C7 as amended: on success the stage returns `response.text` when
non-empty, else the concatenation of the text-bearing parts of the first
candidate when parts exist; the sentinel is returned only when there is no
candidate or no part at all — a response whose parts all lack text yields
`""`, not the sentinel. The ADK variant does return its sentinel whenever
the joined text is empty. -/
theorem c7_soft_failure :
    (∀ r : Response, r.text ≠ "" → extract_text r = r.text) ∧
    (∀ (r : Response) (c : Candidate) (cs : List Candidate), r.text = "" →
      r.candidates = c :: cs → c.content.parts ≠ [] →
      extract_text r =
        String.join ((c.content.parts.filter (fun part => part.text ≠ "")).map Part.text)) ∧
    (∀ r : Response, r.text = "" → r.candidates = [] →
      extract_text r = "No text response generated.") ∧
    (∀ (r : Response) (c : Candidate) (cs : List Candidate), r.text = "" →
      r.candidates = c :: cs → c.content.parts = [] →
      extract_text r = "No text response generated.") ∧
    (∀ (o : Nat → Outcome) (r : Response), o 0 = Outcome.ok r →
      (run_step o).result = extract_text r) ∧
    (∀ events : List Event, String.join (event_texts events) = "" →
      extract_events events = "No response generated.") ∧
    (∀ (o : Nat → RunOutcome) (events : List Event), o 0 = RunOutcome.ok events →
      (run_agent_safe o).result = extract_events events) := by
  refine ⟨?_, ?_, ?_, ?_, ?_, ?_, ?_⟩
  · intro r h
    rw [extract_text, if_pos h]
  · intro r c cs ht hc hp
    rw [extract_text, if_neg (by simpa using ht), hc]
    simp only [if_pos hp]
  · intro r ht hc
    rw [extract_text, if_neg (by simpa using ht), hc]
  · intro r c cs ht hc hp
    rw [extract_text, if_neg (by simpa using ht), hc]
    simp only [hp, ne_eq, not_true_eq_false, if_false, ite_self]
  · intro o r h0
    rw [run_step_success o 0 r (by decide) (fun i hi => absurd hi (Nat.not_lt_zero i)) h0]
  · intro events h
    simp [extract_events, h]
  · intro o events h0
    rw [run_agent_success o 0 events (by decide) (fun i hi => absurd hi (Nat.not_lt_zero i)) h0]

/-- Witness for C7 (amended): a response with non-empty `text` returns it;
an empty ADK event stream returns the ADK sentinel. -/
theorem c7_soft_failure_witness :
    extract_text rHello = "hello" ∧
    (run_step oOk).result = "hello" ∧
    extract_events [] = "No response generated." := by
  refine ⟨?_, ?_, c7_soft_failure.2.2.2.2.2.1 [] rfl⟩
  · rw [c7_soft_failure.1 rHello (by decide)]
    rfl
  · rw [c7_soft_failure.2.2.2.2.1 oOk rHello rfl, c7_soft_failure.1 rHello (by decide)]
    rfl

/-- Counterexample to C2 as stated: in football_system.py `main`, Stage 1
failing non-transiently yields `data_output = ""`, yet the Score and Rank
stages are still invoked (the code only prints a warning). -/
theorem c2_counterexample :
    (main_run bFail reqsSample).data_output = "" ∧
    (main_run bFail reqsSample).invoked = [Stage.retrieve, Stage.score, Stage.rank] := by
  refine ⟨rfl, rfl⟩

/-- Claim C2 as amended: in the ADK variant (football_system_adk.py), an
empty Stage-1 result aborts the pipeline before Stage 2 or Stage 3 is
invoked; in the non-ADK variant (football_system.py) all three stages are
always invoked, regardless of the Stage-1 output. -/
theorem c2_empty_abort :
    (∀ (b : BackendAdk) (reqs : List (String × String)),
      (run_agent_safe (b.retrieve (search_prompt_adk reqs))).result = "" →
      (main_run_adk b reqs).invoked = [Stage.retrieve] ∧ (main_run_adk b reqs).pc = 4) ∧
    (∀ (b : Backend) (reqs : List (String × String)),
      (main_run b reqs).invoked = [Stage.retrieve, Stage.score, Stage.rank]) := by
  constructor
  · intro b reqs h
    have h1 : main_step_adk b (initState reqs) =
        { initState reqs with
          data_output := "", invoked := [Stage.retrieve], pc := 4 } := by
      simp [main_step_adk, initState, h]
    constructor <;>
      rw [main_run_adk, h1] <;> rfl
  · intro b reqs
    rfl

/-- Witness for C2 (amended), at a backend whose retrieval stage raises a
non-transient error. -/
theorem c2_empty_abort_witness :
    (main_run_adk bAdkFail reqsSample).invoked = [Stage.retrieve] ∧
    (main_run_adk bAdkFail reqsSample).pc = 4 := by
  exact c2_empty_abort.1 bAdkFail reqsSample rfl

/-- Claim C9: the requirements mapping is never mutated after collection:
every pipeline step of both variants leaves `reqs` unchanged, and a whole
run ends with exactly the requirements it started from. -/
theorem c9_reqs_immutable :
    (∀ (b : Backend) (s : PipeState), (main_step b s).reqs = s.reqs) ∧
    (∀ (b : BackendAdk) (s : PipeState), (main_step_adk b s).reqs = s.reqs) ∧
    (∀ (b : Backend) (reqs : List (String × String)), (main_run b reqs).reqs = reqs) ∧
    (∀ (b : BackendAdk) (reqs : List (String × String)), (main_run_adk b reqs).reqs = reqs) := by
  have k1 : ∀ (b : Backend) (s : PipeState), (main_step b s).reqs = s.reqs := by
    intro b s
    rcases s with ⟨reqs, d, sc, f, pc, inv⟩
    rcases pc with _ | _ | _ | pc <;> rfl
  have k2 : ∀ (b : BackendAdk) (s : PipeState), (main_step_adk b s).reqs = s.reqs := by
    intro b s
    rcases s with ⟨reqs, d, sc, f, pc, inv⟩
    rcases pc with _ | _ | _ | pc <;> rfl
  refine ⟨k1, k2, ?_, ?_⟩
  · intro b reqs
    rw [main_run, k1, k1, k1]
    rfl
  · intro b reqs
    rw [main_run_adk, k2, k2, k2]
    rfl

/-- The non-ADK discriminant loop reaches `valid` only with one of the two
accepted tokens. -/
theorem disc_loop_valid_choice :
    ∀ (input : List String) (n : Nat) (c : String) (rest : List String) (p : Nat),
      disc_loop input n = DiscResult.valid c rest p → c = "player" ∨ c = "coach" := by
  intro input
  induction input with
  | nil =>
    intro n c rest p h
    exact DiscResult.noConfusion h
  | cons line ls ih =>
    intro n c rest p h
    simp only [disc_loop] at h
    by_cases hv : pyLower (pyStrip line) = "player" ∨ pyLower (pyStrip line) = "coach"
    · rw [if_pos hv] at h
      injection h with h1 h2 h3
      exact h1 ▸ hv
    · rw [if_neg hv] at h
      by_cases he : pyLower (pyStrip line) = ""
      · rw [if_pos he] at h
        exact DiscResult.noConfusion h
      · rw [if_neg he] at h
        exact ih (n + 1) c rest p h

/-- The ADK discriminant loop reaches `valid` only with one of the two
accepted tokens. -/
theorem disc_loop_adk_valid_choice :
    ∀ (input : List String) (n : Nat) (c : String) (rest : List String) (p : Nat),
      disc_loop_adk input n = DiscResult.valid c rest p → c = "player" ∨ c = "coach" := by
  intro input
  induction input with
  | nil =>
    intro n c rest p h
    exact DiscResult.noConfusion h
  | cons line ls ih =>
    intro n c rest p h
    simp only [disc_loop_adk] at h
    by_cases hv : pyLower (pyStrip line) = "player" ∨ pyLower (pyStrip line) = "coach"
    · rw [if_pos hv] at h
      injection h with h1 h2 h3
      exact h1 ▸ hv
    · rw [if_neg hv] at h
      exact ih (n + 1) c rest p h

/-- Whenever `collect_fields` returns a dictionary, the discriminant is
stored under the key `type`. -/
theorem collect_fields_type (choice : String) (rest : List String)
    (reqs : List (String × String))
    (h : collect_fields choice rest = CollectorOutcome.returned reqs) :
    dictGet reqs "type" = choice := by
  unfold collect_fields at h
  by_cases hc : choice = "player"
  · rw [if_pos hc] at h
    rcases rest with _ | ⟨x1, _ | ⟨x2, _ | ⟨x3, _ | ⟨x4, tl⟩⟩⟩⟩
    · exact CollectorOutcome.noConfusion h
    · exact CollectorOutcome.noConfusion h
    · exact CollectorOutcome.noConfusion h
    · exact CollectorOutcome.noConfusion h
    · injection h with h1
      rw [← h1]
      rfl
  · rw [if_neg hc] at h
    rcases rest with _ | ⟨x1, _ | ⟨x2, _ | ⟨x3, _ | ⟨x4, tl⟩⟩⟩⟩
    · exact CollectorOutcome.noConfusion h
    · exact CollectorOutcome.noConfusion h
    · exact CollectorOutcome.noConfusion h
    · exact CollectorOutcome.noConfusion h
    · injection h with h1
      rw [← h1]
      rfl

/-- Counterexample to C3 as stated: in the ADK variant, an empty (non-EOF)
discriminant line does not terminate the process — a further prompt is
issued (2 prompts in total) and the loop then accepts "player". -/
theorem c3_counterexample :
    disc_loop_adk ["", "player"] 0 = DiscResult.valid "player" [] 2 ∧
    DiscResult.valid "player" [] 2 ≠ DiscResult.aborted 1 1 := by
  refine ⟨rfl, by decide⟩

/-- Claim C3 as amended: both discriminant loops accept exactly the
stripped-lowercased tokens "player"/"coach" and loop on other invalid
input; end-of-input aborts both variants with exit status 1 and no further
prompt; an empty discriminant line aborts football_system.py with status 1,
but in the ADK variant it merely re-prompts like any invalid input. -/
theorem c3_discriminant_machine :
    (∀ (input : List String) (n : Nat) (c : String) (rest : List String) (p : Nat),
      disc_loop input n = DiscResult.valid c rest p → c = "player" ∨ c = "coach") ∧
    (∀ (input : List String) (n : Nat) (c : String) (rest : List String) (p : Nat),
      disc_loop_adk input n = DiscResult.valid c rest p → c = "player" ∨ c = "coach") ∧
    (∀ n : Nat, disc_loop [] n = DiscResult.aborted 1 (n + 1)) ∧
    (∀ n : Nat, disc_loop_adk [] n = DiscResult.aborted 1 (n + 1)) ∧
    (∀ (line : String) (ls : List String) (n : Nat), pyLower (pyStrip line) = "" →
      disc_loop (line :: ls) n = DiscResult.aborted 1 (n + 1)) ∧
    (∀ (line : String) (ls : List String) (n : Nat), pyLower (pyStrip line) = "" →
      disc_loop_adk (line :: ls) n = disc_loop_adk ls (n + 1)) ∧
    (∀ (line : String) (ls : List String) (n : Nat),
      pyLower (pyStrip line) ≠ "player" → pyLower (pyStrip line) ≠ "coach" →
      pyLower (pyStrip line) ≠ "" →
      disc_loop (line :: ls) n = disc_loop ls (n + 1)) ∧
    (∀ (line : String) (ls : List String) (n : Nat),
      pyLower (pyStrip line) ≠ "player" → pyLower (pyStrip line) ≠ "coach" →
      disc_loop_adk (line :: ls) n = disc_loop_adk ls (n + 1)) := by
  refine ⟨disc_loop_valid_choice, disc_loop_adk_valid_choice, fun n => rfl, fun n => rfl,
    ?_, ?_, ?_, ?_⟩
  · intro line ls n he
    have hv : ¬(pyLower (pyStrip line) = "player" ∨ pyLower (pyStrip line) = "coach") := by
      rw [he]
      decide
    simp only [disc_loop]
    rw [if_neg hv, if_pos he]
  · intro line ls n he
    have hv : ¬(pyLower (pyStrip line) = "player" ∨ pyLower (pyStrip line) = "coach") := by
      rw [he]
      decide
    simp only [disc_loop_adk]
    rw [if_neg hv]
  · intro line ls n h1 h2 h3
    simp only [disc_loop]
    rw [if_neg (fun h => h.elim h1 h2), if_neg h3]
  · intro line ls n h1 h2
    simp only [disc_loop_adk]
    rw [if_neg (fun h => h.elim h1 h2)]

/-- Witness for C3 (amended) at concrete input streams. -/
theorem c3_discriminant_machine_witness :
    disc_loop [] 0 = DiscResult.aborted 1 1 ∧
    disc_loop_adk [] 0 = DiscResult.aborted 1 1 ∧
    disc_loop ["   "] 0 = DiscResult.aborted 1 1 ∧
    disc_loop_adk ["nope", "coach"] 0 = DiscResult.valid "coach" [] 2 ∧
    ("coach" = "player" ∨ ("coach" : String) = "coach") := by
  refine ⟨c3_discriminant_machine.2.2.1 0, c3_discriminant_machine.2.2.2.1 0,
    c3_discriminant_machine.2.2.2.2.1 "   " [] 0 rfl, ?_,
    c3_discriminant_machine.2.1 ["coach"] 1 "coach" [] 2 rfl⟩
  rw [c3_discriminant_machine.2.2.2.2.2.2.2 "nope" ["coach"] 0 (by decide) (by decide)]
  rfl

/-- Counterexample to C4 as stated: answers are stored `.strip()`ed, not
literally — the supplied answer `" Forward "` is stored as `"Forward"`. -/
theorem c4_counterexample :
    collect_user_requirements ["player", " Forward ", "20-25", "3+ years", "attacking"] =
      CollectorOutcome.returned
        [("type", "player"), ("position", "Forward"), ("age_range", "20-25"),
         ("experience", "3+ years"), ("style", "attacking")] ∧
    (" Forward " : String) ≠ "Forward" := by
  refine ⟨rfl, by decide⟩

/-- Claim C4 as amended: discriminant "player" followed by four answers
yields exactly the keys type, position, age_range, experience, style, in
that order, with each answer stored stripped of surrounding whitespace
(hence literally whenever the answer has no surrounding whitespace). Both
variants agree. -/
theorem c4_player_mapping (position age experience style : String) :
    collect_user_requirements ["player", position, age, experience, style] =
      CollectorOutcome.returned
        [("type", "player"), ("position", pyStrip position), ("age_range", pyStrip age),
         ("experience", pyStrip experience), ("style", pyStrip style)] ∧
    collect_user_requirements_adk ["player", position, age, experience, style] =
      CollectorOutcome.returned
        [("type", "player"), ("position", pyStrip position), ("age_range", pyStrip age),
         ("experience", pyStrip experience), ("style", pyStrip style)] ∧
    reqKeys (collect_user_requirements ["player", position, age, experience, style]) =
      some ["type", "position", "age_range", "experience", "style"] := by
  refine ⟨rfl, rfl, rfl⟩

/-- Claim C5: discriminant "coach" followed by four answers yields exactly
the keys type, style, experience, age_range, focus (ADK variant; the
non-ADK variant produces the same key set). -/
theorem c5_coach_keys (style experience age focus : String) :
    reqKeys (collect_user_requirements_adk ["coach", style, experience, age, focus]) =
      some ["type", "style", "experience", "age_range", "focus"] ∧
    reqKeys (collect_user_requirements ["coach", style, experience, age, focus]) =
      some ["type", "style", "experience", "age_range", "focus"] ∧
    collect_user_requirements_adk ["coach", style, experience, age, focus] =
      CollectorOutcome.returned
        [("type", "coach"), ("style", pyStrip style), ("experience", pyStrip experience),
         ("age_range", pyStrip age), ("focus", pyStrip focus)] := by
  refine ⟨rfl, rfl, rfl⟩

/-- Claim C10: whenever either collector returns, the stored `type` is
exactly "player" or "coach"; the discriminant is stripped and lowercased
before matching, so padded or mixed-case tokens are accepted and stored in
normalized form. -/
theorem c10_type_normalized :
    (∀ (input : List String) (reqs : List (String × String)),
      collect_user_requirements input = CollectorOutcome.returned reqs →
      dictGet reqs "type" = "player" ∨ dictGet reqs "type" = "coach") ∧
    (∀ (input : List String) (reqs : List (String × String)),
      collect_user_requirements_adk input = CollectorOutcome.returned reqs →
      dictGet reqs "type" = "player" ∨ dictGet reqs "type" = "coach") ∧
    (∀ (line : String) (ls : List String) (n : Nat),
      pyLower (pyStrip line) = "player" ∨ pyLower (pyStrip line) = "coach" →
      disc_loop (line :: ls) n = DiscResult.valid (pyLower (pyStrip line)) ls (n + 1)) ∧
    (∀ (line : String) (ls : List String) (n : Nat),
      pyLower (pyStrip line) = "player" ∨ pyLower (pyStrip line) = "coach" →
      disc_loop_adk (line :: ls) n = DiscResult.valid (pyLower (pyStrip line)) ls (n + 1)) := by
  refine ⟨?_, ?_, ?_, ?_⟩
  · intro input reqs h
    unfold collect_user_requirements at h
    cases hd : disc_loop input 0 with
    | aborted code p =>
      rw [hd] at h
      exact CollectorOutcome.noConfusion h
    | valid c rest p =>
      rw [hd] at h
      have hc := disc_loop_valid_choice input 0 c rest p hd
      have ht := collect_fields_type c rest reqs h
      rw [ht]
      exact hc
  · intro input reqs h
    unfold collect_user_requirements_adk at h
    cases hd : disc_loop_adk input 0 with
    | aborted code p =>
      rw [hd] at h
      exact CollectorOutcome.noConfusion h
    | valid c rest p =>
      rw [hd] at h
      have hc := disc_loop_adk_valid_choice input 0 c rest p hd
      have ht := collect_fields_type c rest reqs h
      rw [ht]
      exact hc
  · intro line ls n hv
    simp only [disc_loop]
    rw [if_pos hv]
  · intro line ls n hv
    simp only [disc_loop_adk]
    rw [if_pos hv]

/-- Witness for C10: the padded mixed-case discriminant `"  PLAYER "` is
accepted and stored as the normalized `"player"`. -/
theorem c10_type_normalized_witness :
    (dictGet reqsNorm "type" = "player" ∨ dictGet reqsNorm "type" = "coach") ∧
    collect_user_requirements ["  PLAYER ", "a", "b", "c", "d"] =
      CollectorOutcome.returned reqsNorm ∧
    dictGet reqsNorm "type" = "player" := by
  refine ⟨c10_type_normalized.1 ["  PLAYER ", "a", "b", "c", "d"] reqsNorm rfl, rfl, rfl⟩
